import Mathlib

/-!
Shallow embedding of the core request pipeline of the `eclipse_agent` backend:
message assembly and validation, the retrying completion call, the health
probe (`src/backend/app/services/openai_service.py`) and the chat route's
error mapping (`src/backend/app/api/routes.py`).

Exceptions are modelled as explicit error values; the remote API is an
oracle `call : Nat → CallResult` giving the outcome of each attempt; time
is observed through the list of back-off sleep durations recorded in a
`SendTrace`, and the number of remote calls issued is counted in the same
trace.
-/

namespace EclipseAgent

/-- One turn of conversation, mirroring `app.models.Message` (a `role`
string and a `content` string); the same shape is used for the dicts
`_build_messages` produces. -/
structure Message where
  role : String
  content : String
deriving DecidableEq, Repr

/-- Python's `str.strip()`: remove leading and trailing whitespace,
written structurally over the character list so that it evaluates inside
the kernel. -/
def strip (s : String) : String :=
  ⟨((s.data.dropWhile Char.isWhitespace).reverse.dropWhile
    Char.isWhitespace).reverse⟩

/-- Python truthiness check used throughout the source:
`not s or not s.strip()` — the string is empty, or strips to empty. -/
def isBlank (s : String) : Bool := s == "" || strip s == ""

/-- The distinct `ValueError`s raised in `openai_service.py`, one
constructor per `raise ValueError(...)` site. -/
inductive ValErr where
  /-- line 64: "System prompt cannot be empty" -/
  | systemPromptEmpty
  /-- line 70: history message `i` has an invalid role -/
  | historyInvalidRole (i : Nat) (role : String)
  /-- line 72: history message `i` has empty content -/
  | historyEmptyContent (i : Nat)
  /-- line 77: "User message cannot be empty" -/
  | userMessageEmpty
  /-- line 93: empty message list -/
  | messagesEmpty
  /-- line 98: no system role present -/
  | missingSystemRole
  /-- line 100: no user role present -/
  | missingUserRole
  /-- line 111: message `i` has an invalid role -/
  | invalidRole (i : Nat)
  /-- line 117: message `i` has empty content -/
  | emptyContent (i : Nat)
  /-- line 161: "API returned no choices" -/
  | noChoices
  /-- line 165: "API response missing content field" -/
  | missingContentField
  /-- line 171: "API returned empty or whitespace-only response" -/
  | emptyResponse
  /-- line 174: "API returned suspiciously short response" -/
  | shortResponse
deriving DecidableEq, Repr

/-- The validation loop of `_build_messages` (lines 68-73): each history
entry must have a role among user/assistant/system and non-blank content,
and is then appended unchanged; `i` is the index of the first entry of the
remaining list. -/
def build_history : List Message → Nat → Except ValErr (List Message)
  | [], _ => .ok []
  | m :: rest, i =>
    if m.role ≠ "user" ∧ m.role ≠ "assistant" ∧ m.role ≠ "system" then
      .error (.historyInvalidRole i m.role)
    else if isBlank m.content then
      .error (.historyEmptyContent i)
    else
      match build_history rest (i + 1) with
      | .error e => .error e
      | .ok tail => .ok (m :: tail)

/-- `OpenAIService._build_messages` (lines 43-80): system prompt first
(rejected when blank), then the validated history, then the user message
(rejected when blank) appended last. The system prompt is passed as an
argument, standing for `self.prompt_service.get_system_prompt()`. -/
def build_messages (system_prompt user_message : String)
    (conversation_history : List Message) : Except ValErr (List Message) :=
  if isBlank system_prompt then .error .systemPromptEmpty
  else
    match build_history conversation_history 0 with
    | .error e => .error e
    | .ok hist =>
      if isBlank user_message then .error .userMessageEmpty
      else .ok (⟨"system", system_prompt⟩ :: hist ++ [⟨"user", user_message⟩])

/-- The per-message loop of `_validate_messages` (lines 103-117). The
`isinstance`/key checks of the source hold by typing in this embedding; the
remaining checks are the role set and non-blank (after strip) content. -/
def validate_each : List Message → Nat → Except ValErr Unit
  | [], _ => .ok ()
  | m :: rest, i =>
    if m.role ≠ "system" ∧ m.role ≠ "user" ∧ m.role ≠ "assistant" then
      .error (.invalidRole i)
    else if strip m.content == "" then
      .error (.emptyContent i)
    else validate_each rest (i + 1)

/-- `OpenAIService._validate_messages` (lines 82-119): non-empty list, a
system role and a user role present, then the per-message checks. -/
def validate_messages (messages : List Message) : Except ValErr Unit :=
  if messages = [] then .error .messagesEmpty
  else if "system" ∉ messages.map Message.role then .error .missingSystemRole
  else if "user" ∉ messages.map Message.role then .error .missingUserRole
  else validate_each messages 0

/-- The `message` object of a choice: `hasContentField` models
`hasattr(message, 'content')`, and `content` models the field value, which
may be `None`. -/
structure ApiMessage where
  hasContentField : Bool
  content : Option String
deriving DecidableEq, Repr

/-- One element of `response.choices`. -/
structure ApiChoice where
  message : ApiMessage
deriving DecidableEq, Repr

/-- The duck-typed completion response: its list of choices. -/
structure ApiResponse where
  choices : List ApiChoice
deriving DecidableEq, Repr

/-- Outcome of one remote `chat.completions.create` call: an `OpenAIError`,
some other exception, or a returned response object. -/
inductive CallResult where
  | transportError (m : String)
  | otherError (m : String)
  | success (r : ApiResponse)

/-- The response shape and content validation inlined in `send_message`
(lines 159-174): no choices, missing content field, `None`/blank content,
and content that trims to at most one character all raise `ValueError`;
otherwise the untrimmed text is returned. -/
def validate_response (r : ApiResponse) : Except ValErr String :=
  match r.choices with
  | [] => .error .noChoices
  | choice :: _ =>
    if choice.message.hasContentField = false then .error .missingContentField
    else
      match choice.message.content with
      | none => .error .emptyResponse
      | some t =>
        if strip t == "" then .error .emptyResponse
        else if (strip t).length ≤ 1 then .error .shortResponse
        else .ok t

/-- The exceptions `send_message` can propagate: a `ValueError` (raised
immediately, line 186), an `OpenAIError` or any other exception (both
re-raised only after the retry budget is spent, line 201). -/
inductive SendError where
  | valueError (e : ValErr)
  | openAIError (m : String)
  | otherError (m : String)
deriving DecidableEq, Repr

/-- Observable outcome of one `send_message` invocation: the returned text
or propagated error, the back-off sleeps performed (in order), and how many
remote calls were issued. -/
structure SendTrace where
  result : Except SendError String
  sleeps : List Nat
  calls : Nat
deriving Repr

/-- `OpenAIService.max_retries_on_error` (line 22). -/
def max_retries_on_error : Nat := 3

/-- The `for attempt in range(max_retries_on_error + 1)` loop of
`send_message` (lines 146-206), run over the list of remaining attempt
indices. A returned response is validated; a `ValueError` from that
validation is raised at once. A transport or other exception sleeps
`2 ^ attempt` and moves to the next attempt while `attempt <
max_retries_on_error`, and is re-raised afterwards. The `[]` case is the
unreachable safety net after the loop (line 206). -/
def attempt_loop (call : Nat → CallResult) : List Nat → SendTrace
  | [] => ⟨.error (.openAIError "Failed after all attempts"), [], 0⟩
  | attempt :: rest =>
    match call attempt with
    | .success r =>
      match validate_response r with
      | .ok text => ⟨.ok text, [], 1⟩
      | .error e => ⟨.error (.valueError e), [], 1⟩
    | .transportError m =>
      if attempt < max_retries_on_error then
        let t := attempt_loop call rest
        ⟨t.result, 2 ^ attempt :: t.sleeps, t.calls + 1⟩
      else ⟨.error (.openAIError m), [], 1⟩
    | .otherError m =>
      if attempt < max_retries_on_error then
        let t := attempt_loop call rest
        ⟨t.result, 2 ^ attempt :: t.sleeps, t.calls + 1⟩
      else ⟨.error (.otherError m), [], 1⟩

/-- `OpenAIService.send_message` (lines 121-206): build the message list,
validate it, then run the attempt loop. Both validation failures escape
before any remote call is made. -/
def send_message (system_prompt user_message : String)
    (conversation_history : List Message) (call : Nat → CallResult) :
    SendTrace :=
  match build_messages system_prompt user_message conversation_history with
  | .error e => ⟨.error (.valueError e), [], 0⟩
  | .ok messages =>
    match validate_messages messages with
    | .error e => ⟨.error (.valueError e), [], 0⟩
    | .ok _ => attempt_loop call (List.range (max_retries_on_error + 1))

/-- Outcome of the probe request issued by `health_check`: an exception, or
a returned value (possibly `None`). -/
inductive ProbeResult where
  | raised (m : String)
  | returned (r : Option ApiResponse)

/-- `OpenAIService.health_check` (lines 208-230): one probe request; any
exception yields `False`; otherwise `True` iff the response is not `None`
and has at least one choice. The second component counts probe requests
issued. -/
def health_check (probe : Nat → ProbeResult) : Bool × Nat :=
  match probe 0 with
  | .raised _ => (false, 1)
  | .returned none => (false, 1)
  | .returned (some r) => (decide (0 < r.choices.length), 1)

/-- Body of `app.models.ChatResponse`. -/
structure ChatResponse where
  response : String
  is_secret_revealed : Bool
deriving DecidableEq, Repr

/-- Result of the `chat` route handler: a successful body, or an
`HTTPException` with a status code and detail string. -/
inductive HttpResult where
  | ok (body : ChatResponse)
  | httpException (status : Nat) (detail : String)
deriving DecidableEq, Repr

/-- The `chat` endpoint (`routes.py` lines 61-100): call `send_message`;
on success run the secret check and return the body; `except OpenAIError`
maps to 503, and the catch-all `except Exception` (which receives the
`ValueError`s) maps to 500. `check_secret_revealed` stands for
`prompt_service.check_secret_revealed`. -/
def chat (message : String) (conversation_history : List Message)
    (system_prompt : String) (check_secret_revealed : String → Bool)
    (call : Nat → CallResult) : HttpResult :=
  match (send_message system_prompt message conversation_history call).result with
  | .ok response => .ok ⟨response, check_secret_revealed response⟩
  | .error (.openAIError _) =>
      .httpException 503 "Сервис AI временно недоступен. Попробуйте позже."
  | .error (.valueError _) =>
      .httpException 500 "Произошла внутренняя ошибка сервера."
  | .error (.otherError _) =>
      .httpException 500 "Произошла внутренняя ошибка сервера."

/-- A history entry the assembly loop accepts: its role is one of the three
allowed strings. -/
@[reducible] def okRole (m : Message) : Prop :=
  m.role = "user" ∨ m.role = "assistant" ∨ m.role = "system"

/-- A history entry `_build_messages` rejects: bad role or blank content. -/
@[reducible] def violating (m : Message) : Prop :=
  ¬ okRole m ∨ strip m.content = ""

/-- The error the history loop raises at its first violating entry, index
`i`: the role check fires before the content check. -/
def firstHistErr (i : Nat) (m : Message) : ValErr :=
  if m.role ≠ "user" ∧ m.role ≠ "assistant" ∧ m.role ≠ "system" then
    .historyInvalidRole i m.role
  else .historyEmptyContent i

/-- A malformed response shape in the sense of lines 160-165: no choices,
or the first choice's message lacks a content field. -/
@[reducible] def malformedShape (r : ApiResponse) : Prop :=
  r.choices = [] ∨
    ∃ c rest, r.choices = c :: rest ∧ c.message.hasContentField = false

/-! ## Basic lemmas about the embedded operations -/

lemma isBlank_iff (s : String) : isBlank s = true ↔ strip s = "" := by
  simp only [isBlank, Bool.or_eq_true, beq_iff_eq]
  constructor
  · rintro (rfl | h)
    · decide
    · exact h
  · exact Or.inr

lemma isBlank_eq_false (s : String) : isBlank s = false ↔ strip s ≠ "" := by
  rw [Bool.eq_false_iff]
  exact not_congr (isBlank_iff s)

lemma build_history_ok {l l' : List Message} {i : Nat}
    (h : build_history l i = .ok l') :
    l' = l ∧ ∀ m ∈ l, okRole m ∧ strip m.content ≠ "" := by
  induction l generalizing i l' with
  | nil =>
    simp only [build_history, Except.ok.injEq] at h
    exact ⟨h.symm, by simp⟩
  | cons m rest ih =>
    simp only [build_history] at h
    split at h
    · exact absurd h (by simp)
    next h1 =>
      split at h
      · exact absurd h (by simp)
      next h2 =>
        cases hb : build_history rest (i + 1) with
        | error e => rw [hb] at h; exact absurd h (by simp)
        | ok tail =>
          rw [hb] at h
          simp only [Except.ok.injEq] at h
          obtain ⟨htail, hall⟩ := ih hb
          subst htail
          refine ⟨h.symm, ?_⟩
          intro m' hm'
          rcases List.mem_cons.mp hm' with rfl | hm'
          · refine ⟨by unfold okRole; tauto, ?_⟩
            rw [Bool.not_eq_true, isBlank_eq_false] at h2
            exact h2
          · exact hall m' hm'

lemma build_history_error_of_violating {l : List Message} (i : Nat)
    (h : ∃ m ∈ l, violating m) : ∃ e, build_history l i = .error e := by
  induction l generalizing i with
  | nil => simp at h
  | cons m rest ih =>
    by_cases h1 : m.role ≠ "user" ∧ m.role ≠ "assistant" ∧ m.role ≠ "system"
    · exact ⟨.historyInvalidRole i m.role, by simp [build_history, h1]⟩
    · by_cases h2 : isBlank m.content = true
      · exact ⟨.historyEmptyContent i, by simp [build_history, h1, h2]⟩
      · have hm : ¬ violating m := by
          rw [Bool.not_eq_true, isBlank_eq_false] at h2
          have hr : okRole m := by unfold okRole; tauto
          unfold violating
          tauto
        have hrest : ∃ m' ∈ rest, violating m' := by
          rcases h with ⟨m', hm', hv⟩
          rcases List.mem_cons.mp hm' with rfl | hm'
          · exact absurd hv hm
          · exact ⟨m', hm', hv⟩
        obtain ⟨e, he⟩ := ih (i + 1) hrest
        exact ⟨e, by simp [build_history, h1, h2, he]⟩

lemma build_history_first_violation (pre : List Message) (bad : Message)
    (post : List Message) (i : Nat)
    (hpre : ∀ m ∈ pre, ¬ violating m) (hbad : violating bad) :
    build_history (pre ++ bad :: post) i =
      .error (firstHistErr (i + pre.length) bad) := by
  induction pre generalizing i with
  | nil =>
    simp only [List.nil_append, List.length_nil, Nat.add_zero]
    by_cases h1 : bad.role ≠ "user" ∧ bad.role ≠ "assistant" ∧ bad.role ≠ "system"
    · simp [build_history, firstHistErr, h1]
    · have hr : okRole bad := by unfold okRole; tauto
      have hc : strip bad.content = "" := by
        rcases hbad with hv | hv
        · exact absurd hr hv
        · exact hv
      have hb : isBlank bad.content = true := (isBlank_iff _).mpr hc
      simp [build_history, firstHistErr, h1, hb]
  | cons m pre' ih =>
    have hm := hpre m (by simp)
    have hr : okRole m := by
      unfold violating at hm
      tauto
    have hc : strip m.content ≠ "" := by
      unfold violating at hm
      tauto
    have h1 : ¬ (m.role ≠ "user" ∧ m.role ≠ "assistant" ∧ m.role ≠ "system") := by
      unfold okRole at hr
      tauto
    have h2 : isBlank m.content = false := (isBlank_eq_false _).mpr hc
    have ihh := ih (i + 1) (fun m' hm' => hpre m' (by simp [hm']))
    have hlen : i + 1 + pre'.length = i + (m :: pre').length := by
      simp [List.length_cons]
      omega
    rw [hlen] at ihh
    simp [build_history, h1, h2, ihh]

lemma validate_each_ok {l : List Message}
    (h : ∀ m ∈ l, (m.role = "system" ∨ m.role = "user" ∨ m.role = "assistant") ∧
      strip m.content ≠ "") :
    ∀ i, validate_each l i = .ok () := by
  induction l with
  | nil => intro i; rfl
  | cons m rest ih =>
    intro i
    obtain ⟨hr, hc⟩ := h m (by simp)
    have h1 : ¬ (m.role ≠ "system" ∧ m.role ≠ "user" ∧ m.role ≠ "assistant") := by
      tauto
    have h2 : (strip m.content == "") = false := by
      simpa using hc
    simp [validate_each, h1, h2, ih (fun m' hm' => h m' (by simp [hm'])) (i + 1)]

lemma build_messages_ok {sp um : String} {h msgs : List Message}
    (hb : build_messages sp um h = .ok msgs) :
    msgs = ⟨"system", sp⟩ :: h ++ [⟨"user", um⟩] ∧
    strip sp ≠ "" ∧ strip um ≠ "" ∧
    ∀ m ∈ h, okRole m ∧ strip m.content ≠ "" := by
  by_cases hsp : isBlank sp = true
  · simp [build_messages, hsp] at hb
  · cases hh : build_history h 0 with
    | error e => simp [build_messages, hsp, hh] at hb
    | ok hist =>
      by_cases hum : isBlank um = true
      · simp [build_messages, hsp, hh, hum] at hb
      · simp only [build_messages, hsp, hh, hum, Bool.false_eq_true,
          if_false, Except.ok.injEq] at hb
        obtain ⟨hl, hall⟩ := build_history_ok hh
        subst hl
        rw [Bool.not_eq_true, isBlank_eq_false] at hsp hum
        exact ⟨hb.symm, hsp, hum, hall⟩

lemma build_messages_error_of_bad {sp um : String} {h : List Message}
    (hbad : (∃ m ∈ h, violating m) ∨ strip um = "") :
    ∃ e, build_messages sp um h = .error e := by
  by_cases hsp : isBlank sp = true
  · exact ⟨.systemPromptEmpty, by simp [build_messages, hsp]⟩
  · cases hh : build_history h 0 with
    | error e => exact ⟨e, by simp [build_messages, hsp, hh]⟩
    | ok hist =>
      obtain ⟨_, hall⟩ := build_history_ok hh
      rcases hbad with ⟨m, hm, hv⟩ | hum
      · obtain ⟨hr, hc⟩ := hall m hm
        rcases hv with hv | hv
        · exact absurd hr hv
        · exact absurd hv hc
      · have humb : isBlank um = true := (isBlank_iff um).mpr hum
        exact ⟨.userMessageEmpty, by simp [build_messages, hsp, hh, humb]⟩

lemma validate_messages_of_build {sp um : String} {h msgs : List Message}
    (hb : build_messages sp um h = .ok msgs) :
    validate_messages msgs = .ok () := by
  obtain ⟨hm, hsp, hum, hall⟩ := build_messages_ok hb
  subst hm
  have hprop : ∀ m ∈ (⟨"system", sp⟩ :: h ++ [⟨"user", um⟩] : List Message),
      (m.role = "system" ∨ m.role = "user" ∨ m.role = "assistant") ∧
        strip m.content ≠ "" := by
    intro m hm
    rcases List.mem_cons.mp hm with rfl | hm'
    · exact ⟨Or.inl rfl, hsp⟩
    · rcases List.mem_append.mp hm' with hh | hu
      · obtain ⟨hr, hc⟩ := hall m hh
        unfold okRole at hr
        exact ⟨by tauto, hc⟩
      · simp only [List.mem_singleton] at hu
        subst hu
        exact ⟨Or.inr (Or.inl rfl), hum⟩
  have hsys : "system" ∈ ((⟨"system", sp⟩ :: h ++ [⟨"user", um⟩] :
      List Message).map Message.role) := by simp
  have husr : "user" ∈ ((⟨"system", sp⟩ :: h ++ [⟨"user", um⟩] :
      List Message).map Message.role) := by simp
  unfold validate_messages
  rw [if_neg (by simp : ¬(⟨"system", sp⟩ :: h ++ [⟨"user", um⟩] :
    List Message) = [])]
  rw [if_neg (not_not_intro hsys), if_neg (not_not_intro husr)]
  exact validate_each_ok hprop 0

lemma send_message_ok_build {sp um : String} {h msgs : List Message}
    (call : Nat → CallResult) (hb : build_messages sp um h = .ok msgs) :
    send_message sp um h call = attempt_loop call [0, 1, 2, 3] := by
  have hv := validate_messages_of_build hb
  have hr : List.range (max_retries_on_error + 1) = [0, 1, 2, 3] := rfl
  simp [send_message, hb, hv, hr]

lemma send_message_err_build {sp um : String} {h : List Message} {e : ValErr}
    (call : Nat → CallResult) (hb : build_messages sp um h = .error e) :
    send_message sp um h call = ⟨.error (.valueError e), [], 0⟩ := by
  simp [send_message, hb]

/-! ## Claims -/

/-- C8: when the Prompt Provider's system prompt is empty or
all-whitespace, `send_message` fails with the `ValueError` raised during
assembly before any network call: zero remote calls and zero back-off
sleeps, and the failure is the precondition violation, never a
network/upstream error. -/
theorem c8_empty_system_prompt_no_network (sp um : String)
    (h : List Message) (call : Nat → CallResult) (hsp : strip sp = "") :
    send_message sp um h call =
      ⟨.error (.valueError .systemPromptEmpty), [], 0⟩ := by
  have hb : build_messages sp um h = .error .systemPromptEmpty := by
    simp [build_messages, (isBlank_iff sp).mpr hsp]
  exact send_message_err_build call hb

/-- Witness for C8 at the all-whitespace prompt `"   "`. -/
theorem c8_witness :
    strip "   " = "" ∧
    send_message "   " "hi" [] (fun _ => .transportError "boom") =
      ⟨.error (.valueError .systemPromptEmpty), [], 0⟩ :=
  ⟨by decide, c8_empty_system_prompt_no_network "   " "hi" []
    (fun _ => .transportError "boom") (by decide)⟩

/-- C9: every message list returned by a successful `_build_messages`
passes `_validate_messages` without error: it is non-empty, contains a
system role and a user role, and every element has an allowed role and
content that is non-empty after stripping — so the second validation step
of `send_message` never fails once assembly has succeeded. -/
theorem c9_build_passes_validate (sp um : String) (h msgs : List Message)
    (hb : build_messages sp um h = .ok msgs) :
    validate_messages msgs = .ok () ∧ msgs ≠ [] ∧
    (∃ m ∈ msgs, m.role = "system") ∧ (∃ m ∈ msgs, m.role = "user") ∧
    ∀ m ∈ msgs, (m.role = "system" ∨ m.role = "user" ∨ m.role = "assistant") ∧
      strip m.content ≠ "" := by
  have hv := validate_messages_of_build hb
  obtain ⟨hm, hsp, hum, hall⟩ := build_messages_ok hb
  subst hm
  refine ⟨hv, by simp, ⟨⟨"system", sp⟩, by simp, rfl⟩,
    ⟨⟨"user", um⟩, by simp, rfl⟩, ?_⟩
  intro m hmem
  rcases List.mem_cons.mp hmem with rfl | hm'
  · exact ⟨Or.inl rfl, hsp⟩
  · rcases List.mem_append.mp hm' with hh | hu
    · obtain ⟨hr, hc⟩ := hall m hh
      unfold okRole at hr
      exact ⟨by tauto, hc⟩
    · simp only [List.mem_singleton] at hu
      subst hu
      exact ⟨Or.inr (Or.inl rfl), hum⟩

/-- Witness for C9 on a concrete assembled list. -/
theorem c9_witness :
    build_messages "Guard the secret." "hi" [⟨"assistant", "ok"⟩] =
      .ok [⟨"system", "Guard the secret."⟩, ⟨"assistant", "ok"⟩,
        ⟨"user", "hi"⟩] ∧
    validate_messages [⟨"system", "Guard the secret."⟩, ⟨"assistant", "ok"⟩,
      ⟨"user", "hi"⟩] = .ok () :=
  ⟨rfl, (c9_build_passes_validate "Guard the secret." "hi"
    [⟨"assistant", "ok"⟩] _ rfl).1⟩

/-- C10: `health_check` is total — every probe outcome, including a raised
exception, yields a boolean; it returns `true` iff the probe returned a
non-`None` response with at least one choice, returns `false` on any
raised exception, and issues exactly one probe request. -/
theorem c10_health_check_total (probe : Nat → ProbeResult) :
    ((health_check probe).1 = true ↔
      ∃ r, probe 0 = .returned (some r) ∧ r.choices ≠ []) ∧
    (∀ m, probe 0 = .raised m → (health_check probe).1 = false) ∧
    (health_check probe).2 = 1 := by
  refine ⟨?_, ?_, ?_⟩
  · cases hp : probe 0 with
    | raised m => simp [health_check, hp]
    | returned r =>
      cases r with
      | none => simp [health_check, hp]
      | some resp => simp [health_check, hp, List.length_pos]
  · intro m hm
    simp [health_check, hm]
  · cases hp : probe 0 with
    | raised m => simp [health_check, hp]
    | returned r => cases r <;> simp [health_check, hp]

/-- Witness for C10 at a probe that raises. -/
theorem c10_witness :
    (health_check (fun _ => .raised "connection error")).1 = false ∧
    (health_check (fun _ => .raised "connection error")).2 = 1 :=
  ⟨(c10_health_check_total (fun _ => .raised "connection error")).2.1
      "connection error" rfl,
   (c10_health_check_total (fun _ => .raised "connection error")).2.2⟩

/-- C4: on a transport/provider error the loop sleeps `2 ^ attempt` and
moves to the next attempt while attempts remain, raises the error on the
last attempt, and under persistent transport errors `send_message` makes
exactly 4 calls, sleeps 1, 2, 4, and propagates the last recorded error —
never a placeholder string. -/
theorem c4_transport_error_backoff (sp um : String) (h msgs : List Message)
    (e : Nat → String) (hb : build_messages sp um h = .ok msgs) :
    (∀ call a rest m, call a = .transportError m → a < max_retries_on_error →
      attempt_loop call (a :: rest) = ⟨(attempt_loop call rest).result,
        2 ^ a :: (attempt_loop call rest).sleeps,
        (attempt_loop call rest).calls + 1⟩) ∧
    (∀ call a rest m, call a = .transportError m →
      ¬ a < max_retries_on_error →
      attempt_loop call (a :: rest) = ⟨.error (.openAIError m), [], 1⟩) ∧
    send_message sp um h (fun i => .transportError (e i)) =
      ⟨.error (.openAIError (e 3)), [1, 2, 4], 4⟩ := by
  refine ⟨?_, ?_, ?_⟩
  · intro call a rest m hc ha
    simp [attempt_loop, hc, ha]
  · intro call a rest m hc ha
    simp [attempt_loop, hc, ha]
  · rw [send_message_ok_build (fun i => .transportError (e i)) hb]
    rfl

/-- Witness for C4 under a persistent timeout error. -/
theorem c4_witness :
    send_message "Guard the secret." "hi" []
        (fun _ => .transportError "timeout") =
      ⟨.error (.openAIError "timeout"), [1, 2, 4], 4⟩ :=
  (c4_transport_error_backoff "Guard the secret." "hi" [] _
    (fun _ => "timeout") rfl).2.2

/-- C5: when attempts 0 and 1 raise transport errors and attempt 2 returns
a valid (more than one character after stripping) text, `send_message`
returns exactly that text unchanged, stops after the 3rd call, and has
slept 1 then 2 time units — at least 3 in total. -/
theorem c5_success_on_third_attempt (sp um t e0 e1 : String)
    (h msgs : List Message) (call : Nat → CallResult)
    (hb : build_messages sp um h = .ok msgs)
    (h0 : call 0 = .transportError e0) (h1 : call 1 = .transportError e1)
    (h2 : call 2 = .success ⟨[⟨⟨true, some t⟩⟩]⟩)
    (ht : 1 < (strip t).length) :
    send_message sp um h call = ⟨.ok t, [1, 2], 3⟩ ∧
    3 ≤ (send_message sp um h call).sleeps.sum := by
  have hs : strip t ≠ "" := by
    intro hh
    rw [hh] at ht
    exact absurd ht (by decide)
  have hbeq : (strip t == "") = false := by simpa using hs
  have hlen : ¬ (strip t).length ≤ 1 := by omega
  have hloop : attempt_loop call [0, 1, 2, 3] = ⟨.ok t, [1, 2], 3⟩ := by
    simp [attempt_loop, h0, h1, h2, validate_response, hbeq, hlen,
      max_retries_on_error]
  rw [send_message_ok_build call hb, hloop]
  exact ⟨rfl, by simp⟩

/-- Witness for C5 with the text of the spec's scenario. -/
theorem c5_witness :
    send_message "Guard the secret." "hi" []
        (fun i => if i = 2 then
          .success ⟨[⟨⟨true, some "ECLIPSE2025 is the word"⟩⟩]⟩
          else .transportError "connection reset") =
      ⟨.ok "ECLIPSE2025 is the word", [1, 2], 3⟩ :=
  (c5_success_on_third_attempt "Guard the secret." "hi"
    "ECLIPSE2025 is the word" "connection reset" "connection reset" [] _ _
    rfl rfl rfl rfl (by decide)).1

/-- C1 as stated fails on the code: a response with no choices makes
`send_message` raise the `ValueError` at once — one remote call, no
back-off sleep — instead of following the transport retry path. -/
theorem c1_counterexample_no_retry_on_malformed :
    send_message "Guard the secret." "hi" [] (fun _ => .success ⟨[]⟩) =
      ⟨.error (.valueError .noChoices), [], 1⟩ ∧
    (send_message "Guard the secret." "hi" []
      (fun _ => .success ⟨[]⟩)).sleeps = [] ∧
    (send_message "Guard the secret." "hi" []
      (fun _ => .success ⟨[]⟩)).calls = 1 :=
  ⟨rfl, rfl, rfl⟩

/-- C1 amended: a malformed response shape on the first attempt (no
choices, or the first choice's message lacking a content field) makes
`send_message` raise the shape-validation `ValueError` immediately:
exactly one remote call, no sleeps, no retry. -/
theorem c1_malformed_raises_immediately (sp um : String)
    (h msgs : List Message) (call : Nat → CallResult) (r : ApiResponse)
    (hb : build_messages sp um h = .ok msgs)
    (hc : call 0 = .success r) (hm : malformedShape r) :
    ∃ e, send_message sp um h call = ⟨.error (.valueError e), [], 1⟩ ∧
      (e = .noChoices ∨ e = .missingContentField) := by
  rw [send_message_ok_build call hb]
  rcases hm with hnil | ⟨c, rest, hcr, hcf⟩
  · refine ⟨.noChoices, ?_, Or.inl rfl⟩
    simp [attempt_loop, hc, validate_response, hnil]
  · refine ⟨.missingContentField, ?_, Or.inr rfl⟩
    simp [attempt_loop, hc, validate_response, hcr, hcf]

/-- Witness for the amended C1 at a choices-free response. -/
theorem c1_witness :
    ∃ e, send_message "Guard the secret." "hi" [] (fun _ => .success ⟨[]⟩) =
      ⟨.error (.valueError e), [], 1⟩ ∧
      (e = .noChoices ∨ e = .missingContentField) :=
  c1_malformed_raises_immediately "Guard the secret." "hi" [] _
    (fun _ => .success ⟨[]⟩) ⟨[]⟩ rfl rfl (Or.inl rfl)

/-- C2 as stated fails on the code: a call that always returns empty
content is rejected on the very first attempt with a `ValueError` — one
call, not 4, and not an upstream-unavailable error. -/
theorem c2_counterexample_single_attempt :
    send_message "Guard the secret." "hi" []
        (fun _ => .success ⟨[⟨⟨true, some ""⟩⟩]⟩) =
      ⟨.error (.valueError .emptyResponse), [], 1⟩ ∧
    (send_message "Guard the secret." "hi" []
        (fun _ => .success ⟨[⟨⟨true, some ""⟩⟩]⟩)).calls ≠ 4 :=
  ⟨rfl, by decide⟩

/-- C2 amended: a degenerate reply — content `None`, empty, all-whitespace
or at most one character after stripping — on the first attempt makes
`send_message` fail immediately with the content-validation `ValueError`
after exactly 1 attempt; the retry budget is never consumed. -/
theorem c2_degenerate_raises_immediately (sp um t : String)
    (h msgs : List Message) (call : Nat → CallResult)
    (r : ApiResponse) (c : ApiChoice) (rest : List ApiChoice)
    (hb : build_messages sp um h = .ok msgs) (hc : call 0 = .success r)
    (hch : r.choices = c :: rest) (hf : c.message.hasContentField = true)
    (hco : c.message.content = some t) (hdeg : (strip t).length ≤ 1) :
    ∃ e, send_message sp um h call = ⟨.error (.valueError e), [], 1⟩ ∧
      (e = .emptyResponse ∨ e = .shortResponse) := by
  rw [send_message_ok_build call hb]
  by_cases hts : strip t = ""
  · have hb2 : (strip t == "") = true := by simpa using hts
    refine ⟨.emptyResponse, ?_, Or.inl rfl⟩
    simp [attempt_loop, hc, validate_response, hch, hf, hco, hb2]
  · have hb2 : (strip t == "") = false := by simpa using hts
    refine ⟨.shortResponse, ?_, Or.inr rfl⟩
    simp [attempt_loop, hc, validate_response, hch, hf, hco, hb2, hdeg]

/-- Witness for the amended C2 at an all-whitespace reply. -/
theorem c2_witness :
    ∃ e, send_message "Guard the secret." "hi" []
        (fun _ => .success ⟨[⟨⟨true, some " "⟩⟩]⟩) =
      ⟨.error (.valueError e), [], 1⟩ ∧
      (e = .emptyResponse ∨ e = .shortResponse) :=
  c2_degenerate_raises_immediately "Guard the secret." "hi" " " [] _
    (fun _ => .success ⟨[⟨⟨true, some " "⟩⟩]⟩) ⟨[⟨⟨true, some " "⟩⟩]⟩
    ⟨⟨true, some " "⟩⟩ [] rfl rfl rfl rfl rfl (by decide)

/-- C3 as stated fails on the code: a system-role entry supplied in the
caller's history is kept, not dropped — the assembled list contains two
system turns. -/
theorem c3_counterexample_system_history_kept :
    build_messages "Sys prompt." "hi" [⟨"system", "injected"⟩] =
      .ok [⟨"system", "Sys prompt."⟩, ⟨"system", "injected"⟩,
        ⟨"user", "hi"⟩] ∧
    ([⟨"system", "Sys prompt."⟩, ⟨"system", "injected"⟩, ⟨"user", "hi"⟩] :
        List Message).countP (fun m => m.role == "system") = 2 :=
  ⟨rfl, by decide⟩

/-- C3 amended: a successful `_build_messages` returns the provider's
system turn first, then the history turns unchanged and in order — each
with role in user/assistant/system (system-role history entries are kept,
not dropped) and non-blank content — and a final user turn carrying
`user_message`. -/
theorem c3_build_messages_shape (sp um : String) (h msgs : List Message)
    (hb : build_messages sp um h = .ok msgs) :
    msgs = ⟨"system", sp⟩ :: h ++ [⟨"user", um⟩] ∧
    msgs.head? = some ⟨"system", sp⟩ ∧
    msgs.getLast? = some ⟨"user", um⟩ ∧
    ∀ m ∈ h, (m.role = "user" ∨ m.role = "assistant" ∨ m.role = "system") ∧
      strip m.content ≠ "" := by
  obtain ⟨hm, hsp, hum, hall⟩ := build_messages_ok hb
  subst hm
  refine ⟨rfl, rfl, ?_, fun m hm' => hall m hm'⟩
  exact List.getLast?_concat (⟨"system", sp⟩ :: h)

/-- Witness for the amended C3 on a two-turn history. -/
theorem c3_witness :
    build_messages "Sys prompt." "hello there"
        [⟨"user", "q"⟩, ⟨"assistant", "a"⟩] =
      .ok [⟨"system", "Sys prompt."⟩, ⟨"user", "q"⟩, ⟨"assistant", "a"⟩,
        ⟨"user", "hello there"⟩] ∧
    ([⟨"system", "Sys prompt."⟩, ⟨"user", "q"⟩, ⟨"assistant", "a"⟩,
        ⟨"user", "hello there"⟩] : List Message).getLast? =
      some ⟨"user", "hello there"⟩ :=
  ⟨rfl, (c3_build_messages_shape "Sys prompt." "hello there"
    [⟨"user", "q"⟩, ⟨"assistant", "a"⟩] _ rfl).2.2.1⟩

/-- C6: a history entry with a role outside the allowed set or with blank
content, or a blank user message, makes `send_message` fail with the
assembly `ValueError`: no partial list escapes, no remote call is issued
and no sleep happens; when the system prompt is valid, the error is the
one raised at the first violating history entry. -/
theorem c6_invalid_input_no_network (sp um : String) (h : List Message)
    (call : Nat → CallResult)
    (hbad : (∃ m ∈ h, violating m) ∨ strip um = "") :
    (∃ e, send_message sp um h call = ⟨.error (.valueError e), [], 0⟩) ∧
    (∀ pre bad post, h = pre ++ bad :: post → (∀ m ∈ pre, ¬ violating m) →
      violating bad → strip sp ≠ "" →
      send_message sp um h call =
        ⟨.error (.valueError (firstHistErr pre.length bad)), [], 0⟩) := by
  constructor
  · obtain ⟨e, he⟩ := build_messages_error_of_bad hbad
    exact ⟨e, send_message_err_build call he⟩
  · intro pre bad post hsplit hpre hbadv hsp
    subst hsplit
    have hh := build_history_first_violation pre bad post 0 hpre hbadv
    rw [Nat.zero_add] at hh
    have hbm : build_messages sp um (pre ++ bad :: post) =
        .error (firstHistErr pre.length bad) := by
      simp [build_messages, (isBlank_eq_false sp).mpr hsp, hh]
    exact send_message_err_build call hbm

/-- Witness for C6: a history whose first entry has role `"moderator"`. -/
theorem c6_witness :
    (∃ e, send_message "Guard the secret." "hi" [⟨"moderator", "x"⟩]
        (fun _ => .transportError "boom") =
      ⟨.error (.valueError e), [], 0⟩) ∧
    send_message "Guard the secret." "hi" [⟨"moderator", "x"⟩]
        (fun _ => .transportError "boom") =
      ⟨.error (.valueError (.historyInvalidRole 0 "moderator")), [], 0⟩ := by
  have hv : violating (⟨"moderator", "x"⟩ : Message) := Or.inl (by decide)
  have hth := c6_invalid_input_no_network "Guard the secret." "hi"
    [⟨"moderator", "x"⟩] (fun _ => .transportError "boom")
    (Or.inl ⟨⟨"moderator", "x"⟩, by simp, hv⟩)
  refine ⟨hth.1, ?_⟩
  have h2 := hth.2 [] ⟨"moderator", "x"⟩ [] rfl (by simp) hv (by decide)
  simpa [firstHistErr] using h2

/-- C7 as stated fails on the code: an empty system prompt — an
`InvalidInput` failure — is answered by the chat endpoint with HTTP 500, a
server-error status, not a client-error (4xx) response. -/
theorem c7_counterexample_invalid_input_500 :
    chat "hi" [] "" (fun _ => false) (fun _ => .transportError "down") =
      .httpException 500 "Произошла внутренняя ошибка сервера." ∧
    ¬ (400 ≤ 500 ∧ 500 < 500) :=
  ⟨rfl, by decide⟩

/-- C7 amended: the chat endpoint surfaces `ValueError` (`InvalidInput`)
failures as HTTP 500 — a server-error status distinct from, but not a
client-error unlike, the HTTP 503 used for upstream failures
(`OpenAIError`). -/
theorem c7_error_category_mapping (um sp : String) (h : List Message)
    (chk : String → Bool) (call : Nat → CallResult) :
    (∀ e, (send_message sp um h call).result = .error (.valueError e) →
      chat um h sp chk call =
        .httpException 500 "Произошла внутренняя ошибка сервера.") ∧
    (∀ m, (send_message sp um h call).result = .error (.openAIError m) →
      chat um h sp chk call =
        .httpException 503 "Сервис AI временно недоступен. Попробуйте позже.") ∧
    (500 : Nat) ≠ 503 := by
  refine ⟨?_, ?_, by decide⟩
  · intro e he
    simp [chat, he]
  · intro m hm
    simp [chat, hm]

/-- Witness for the amended C7 at an empty system prompt. -/
theorem c7_witness :
    chat "hi" [] "" (fun _ => false) (fun _ => .transportError "down") =
      .httpException 500 "Произошла внутренняя ошибка сервера." :=
  (c7_error_category_mapping "hi" "" [] (fun _ => false)
    (fun _ => .transportError "down")).1 .systemPromptEmpty rfl

end EclipseAgent
